import Mathlib

/-!
Verification of the EPP (personal protective equipment) detection session
manager. The definitions below are a shallow embedding of the repository's
code:

* the Node/Express aggregation microservice (`CLASS_MAPPING`,
  `processDetections`, `validateCompletePPE`);
* the React dashboard session manager (`handleDetectionResponse`,
  `startDetection`, `handleResume`, `stopDetection` and the adaptive
  scheduling loop in `Dashboard.tsx`);
* the WebSocket transport (`PPEWebSocket` in `ppeService.ts`).

JavaScript numbers used for latencies and confidences are modelled as `ℚ`
(or `ℕ` for millisecond counts), JavaScript objects used as string-keyed
maps are modelled as insertion-ordered association lists, and the DOM timer
API is modelled as an explicit `Option` timer slot in the session state.
-/

namespace EPP

/-! ## ASCII lower-casing

The backend labels are ASCII, so JavaScript `String.prototype.toLowerCase`
is modelled by mapping the core `Char.toLower` (which lowers exactly the
basic latin letters) over the characters of the string. -/

/-- Conversion of a valid code point through `Char.ofNat` is faithful. -/
theorem charToNat_ofNat (n : Nat) (h : n.isValidChar) : (Char.ofNat n).toNat = n := by
  rw [Char.ofNat, dif_pos h]
  simp [Char.ofNatAux, Char.toNat, UInt32.toNat, BitVec.toNat_ofNatLt]

/-- Lowering a character twice is the same as lowering it once. -/
theorem toLower_idem (c : Char) : c.toLower.toLower = c.toLower := by
  by_cases h : c.toNat ≥ 65 ∧ c.toNat ≤ 90
  · have h1 : c.toLower = Char.ofNat (c.toNat + 32) := by
      unfold Char.toLower
      rw [if_pos h]
    have hv : (c.toNat + 32).isValidChar := by
      left
      have := h.2
      omega
    have ht : (Char.ofNat (c.toNat + 32)).toNat = c.toNat + 32 := charToNat_ofNat _ hv
    have hn : ¬((Char.ofNat (c.toNat + 32)).toNat ≥ 65 ∧ (Char.ofNat (c.toNat + 32)).toNat ≤ 90) := by
      rw [ht]
      have := h.1
      omega
    rw [h1]
    unfold Char.toLower
    rw [if_neg hn]
  · have h1 : c.toLower = c := by
      unfold Char.toLower
      rw [if_neg h]
    rw [h1, h1]

/-- Model of JavaScript `s.toLowerCase()` for ASCII strings. -/
def toLowerStr (s : String) : String := String.mk (s.data.map Char.toLower)

/-- Lower-casing a string is idempotent. -/
theorem toLowerStr_idem (s : String) : toLowerStr (toLowerStr s) = toLowerStr s := by
  unfold toLowerStr
  simp only [List.map_map]
  congr 1
  apply List.map_congr_left
  intro a _
  exact toLower_idem a

/-! ## Aggregation microservice (the Express service in the repository)

Embeds `EPP_CLASSES`, `CLASS_MAPPING`, `processDetections` and
`validateCompletePPE`. -/

/-- The eight canonical equipment classes (`EPP_CLASSES` in the service). -/
def EPP_CLASSES : List String :=
  ["barbijo", "botas", "camisa_jean", "casco", "chaleco", "guantes", "lentes", "pantalon"]

/-- First-match lookup in an association table, modelling a JavaScript
object property access that yields undefined for an absent key. -/
def lookupTable : List (String × String) → String → Option String
  | [], _ => none
  | p :: ps, s => if s = p.1 then some p.2 else lookupTable ps s

/-- A successful table lookup returns a pair of the table. -/
theorem lookupTable_mem (t : List (String × String)) (s v : String)
    (h : lookupTable t s = some v) : (s, v) ∈ t := by
  induction t with
  | nil => exact Option.noConfusion h
  | cons p ps ih =>
    unfold lookupTable at h
    by_cases hs : s = p.1
    · rw [if_pos hs] at h
      injection h with h2
      subst hs
      subst h2
      exact List.mem_cons_self _ _
    · rw [if_neg hs] at h
      exact List.mem_cons_of_mem _ (ih h)

/-- The entries of the `CLASS_MAPPING` object of the service, in source
order. -/
def CLASS_MAPPING_TABLE : List (String × String) :=
  [ ("mask", "barbijo"), ("masks", "barbijo")
  , ("boot", "botas"), ("boots", "botas")
  , ("shirt", "camisa_jean"), ("shirts", "camisa_jean")
  , ("helmet", "casco"), ("helmets", "casco"), ("cascos", "casco")
  , ("vest", "chaleco"), ("vests", "chaleco")
  , ("glove", "guantes"), ("gloves", "guantes")
  , ("glasses", "lentes"), ("glass", "lentes")
  , ("pant", "pantalon"), ("pants", "pantalon")
  , ("barbijo", "barbijo"), ("botas", "botas"), ("camisa_jean", "camisa_jean")
  , ("casco", "casco"), ("chaleco", "chaleco"), ("guantes", "guantes")
  , ("lentes", "lentes"), ("pantalon", "pantalon") ]

/-- The synonym table `CLASS_MAPPING` of the service, as a lookup returning
`none` for labels not present in the table. -/
def CLASS_MAPPING (s : String) : Option String :=
  lookupTable CLASS_MAPPING_TABLE s

/-- One raw prediction from the detection backend. The JavaScript object may
carry either a field named class or a field named class_name; an absent
field is modelled as the empty string (both are falsy in the source's
fallback chain). -/
structure RoboPred where
  cls : String
  class_name : String
  confidence : ℚ
  x : ℚ
  y : ℚ
  width : ℚ
  height : ℚ
deriving DecidableEq

/-- Line 213 of the service:
originalClass is the lower-cased first non-empty of class and class_name. -/
def originalClassOf (d : RoboPred) : String :=
  toLowerStr (if d.cls ≠ "" then d.cls else if d.class_name ≠ "" then d.class_name else "")

/-- Line 214 of the service: the group key is the mapped canonical class
when the table knows the label, otherwise the lower-cased label itself. -/
def classNameOf (d : RoboPred) : String :=
  (CLASS_MAPPING (originalClassOf d)).getD (originalClassOf d)

/-- Normalisation of one label in isolation (the same computation as
`classNameOf`, on a bare string). -/
def normalizeLabel (l : String) : String :=
  (CLASS_MAPPING (toLowerStr l)).getD (toLowerStr l)

/-- One element of a `groupedDetections` bucket. -/
structure GroupedItem where
  confidence : ℚ
  x : ℚ
  y : ℚ
  width : ℚ
  height : ℚ
  originalClass : String
deriving DecidableEq

/-- Projection of one raw prediction into its grouped form. -/
def toGroupedItem (d : RoboPred) : GroupedItem :=
  { confidence := d.confidence, x := d.x, y := d.y, width := d.width,
    height := d.height, originalClass := originalClassOf d }

/-- Insertion into the `groupedDetections` object: a fresh key is appended
(JavaScript object keys keep insertion order), an existing bucket grows at
its end. -/
def addToGroup (gs : List (String × List GroupedItem)) (key : String) (item : GroupedItem) :
    List (String × List GroupedItem) :=
  if gs.any (fun g => g.1 == key) then
    gs.map (fun g => if g.1 = key then (g.1, g.2 ++ [item]) else g)
  else
    gs ++ [(key, [item])]

/-- The grouping loop of `processDetections`. -/
def groupDetections (dets : List RoboPred) : List (String × List GroupedItem) :=
  dets.foldl (fun gs d => addToGroup gs (classNameOf d) (toGroupedItem d)) []

/-- One value of the `detectionsByClass` object. -/
structure ClassGroup where
  count : ℕ
  avgConfidence : ℚ
  detections : List GroupedItem
deriving DecidableEq

/-- The second loop of `processDetections`: per-class count and arithmetic
mean confidence. -/
def detectionsByClassOf (dets : List RoboPred) : List (String × ClassGroup) :=
  (groupDetections dets).map fun g =>
    (g.1,
      { count := g.2.length
      , avgConfidence := (g.2.map GroupedItem.confidence).sum / (g.2.length : ℚ)
      , detections := g.2 })

/-- Result record of `processDetections`. -/
structure ProcessedDetections where
  totalDetections : ℕ
  detectionsByClass : List (String × ClassGroup)
  allDetections : List RoboPred
deriving DecidableEq

/-- The `processDetections` function of the service, on the extracted
detections array (the unwrapping of the Roboflow envelope
outputs[0].predictions is elided; an empty envelope yields the same result
as an empty array). -/
def processDetections (detectionsArray : List RoboPred) : ProcessedDetections :=
  { totalDetections := detectionsArray.length
  , detectionsByClass := detectionsByClassOf detectionsArray
  , allDetections := detectionsArray }

/-- Result record of `validateCompletePPE`. The source renders
completionRate with toFixed(2); the value detected.length / 8 * 100 is
always an exact multiple of 1/2, so the two-decimal rendering is exact and
the field is kept as the exact rational. -/
structure Validation where
  isComplete : Bool
  detected : List String
  missing : List String
  completionRate : ℚ
deriving DecidableEq

/-- The `validateCompletePPE` function of the service. -/
def validateCompletePPE (detectionsByClass : List (String × ClassGroup)) : Validation :=
  let detected := detectionsByClass.map Prod.fst
  let missing := EPP_CLASSES.filter (fun cls => !(detected.contains cls))
  { isComplete := missing.length == 0
  , detected := detected
  , missing := missing
  , completionRate := (detected.length : ℚ) / (EPP_CLASSES.length : ℚ) * 100 }

/-! ### Lemmas about the mapping table -/

/-- All values of the mapping table are fixed points of normalisation. -/
theorem table_values_fixed :
    CLASS_MAPPING_TABLE.all (fun p => normalizeLabel p.2 == p.2) = true := by
  decide

/-- Every value produced by the mapping table is itself a fixed point of
normalisation (each canonical class is lower-case and identity-mapped). -/
theorem classMapping_value_fixed (s v : String) (h : CLASS_MAPPING s = some v) :
    normalizeLabel v = v := by
  have hm : (s, v) ∈ CLASS_MAPPING_TABLE := lookupTable_mem _ _ _ h
  have := List.all_eq_true.mp table_values_fixed _ hm
  exact eq_of_beq this

/-- Every canonical class is present in the mapping table. -/
theorem epp_classes_mapped : EPP_CLASSES.all (fun c => (CLASS_MAPPING c).isSome) = true := by
  decide

/-! ### Lemmas about the grouping loop -/

/-- Updating an existing bucket leaves the key sequence unchanged. -/
theorem keys_map_update (gs : List (String × List GroupedItem)) (k : String) (i : GroupedItem) :
    ((gs.map (fun g => if g.1 = k then (g.1, g.2 ++ [i]) else g)).map Prod.fst)
      = gs.map Prod.fst := by
  rw [List.map_map]
  apply List.map_congr_left
  intro a _
  by_cases h : a.1 = k
  · simp [h]
  · simp [h]

/-- Inserting under key `k` makes `k` a key of the grouping. -/
theorem mem_keys_addToGroup_self (gs : List (String × List GroupedItem)) (k : String)
    (i : GroupedItem) : k ∈ (addToGroup gs k i).map Prod.fst := by
  unfold addToGroup
  by_cases h : gs.any (fun g => g.1 == k)
  · rw [if_pos h, keys_map_update]
    obtain ⟨g, hg, hbeq⟩ := List.any_eq_true.mp h
    have hgk : g.1 = k := eq_of_beq hbeq
    exact hgk ▸ List.mem_map_of_mem Prod.fst hg
  · rw [if_neg h, List.map_append]
    simp

/-- Insertion never removes keys of the grouping. -/
theorem keys_addToGroup_mono (gs : List (String × List GroupedItem)) (k' : String)
    (i : GroupedItem) (k : String) (h : k ∈ gs.map Prod.fst) :
    k ∈ (addToGroup gs k' i).map Prod.fst := by
  unfold addToGroup
  by_cases hc : gs.any (fun g => g.1 == k')
  · rw [if_pos hc, keys_map_update]
    exact h
  · rw [if_neg hc, List.map_append]
    exact List.mem_append_left _ h

/-- The grouping fold never removes keys. -/
theorem keys_groupFold_mono (dets : List RoboPred) :
    ∀ (gs : List (String × List GroupedItem)) (k : String), k ∈ gs.map Prod.fst →
      k ∈ ((dets.foldl (fun gs d => addToGroup gs (classNameOf d) (toGroupedItem d)) gs).map
            Prod.fst) := by
  induction dets with
  | nil => intro gs k h; exact h
  | cons d ds ih =>
    intro gs k h
    exact ih _ _ (keys_addToGroup_mono _ _ _ _ h)

/-- Every processed detection contributes its (normalised) class as a key of
the grouping. -/
theorem mem_keys_groupFold (dets : List RoboPred) :
    ∀ (gs : List (String × List GroupedItem)) (d : RoboPred), d ∈ dets →
      classNameOf d ∈ ((dets.foldl (fun gs d => addToGroup gs (classNameOf d) (toGroupedItem d))
        gs).map Prod.fst) := by
  induction dets with
  | nil => intro gs d h; exact absurd h (List.not_mem_nil d)
  | cons e es ih =>
    intro gs d h
    rcases List.mem_cons.mp h with h1 | h2
    · subst h1
      exact keys_groupFold_mono es _ _ (mem_keys_addToGroup_self _ _ _)
    · exact ih _ _ h2

/-- The per-class summary keeps exactly the keys of the grouping. -/
theorem keys_detectionsByClass (dets : List RoboPred) :
    (detectionsByClassOf dets).map Prod.fst = (groupDetections dets).map Prod.fst := by
  unfold detectionsByClassOf
  rw [List.map_map]
  apply List.map_congr_left
  intro a _
  rfl

/-! ### C4: unmapped labels -/

/-- Unmapped label example: a detection whose class is not in the table. -/
def c4Dog : RoboPred :=
  { cls := "Dog", class_name := "", confidence := 1/2, x := 0, y := 0, width := 1, height := 1 }

/-- C4 counterexample: a raw detection whose lowercased label (dog) is not
in the class-mapping table is NOT dropped from aggregation — processing the
single-detection frame produces a per-class group keyed by the unmapped
label with count 1, refuting the claim that such a detection contributes to
no per-class group. -/
theorem unmapped_label_not_dropped_cex :
    CLASS_MAPPING (originalClassOf c4Dog) = none ∧
    (processDetections [c4Dog]).detectionsByClass.map Prod.fst = ["dog"] ∧
    (processDetections [c4Dog]).detectionsByClass.map (fun g => g.2.count) = [1] ∧
    (processDetections [c4Dog]).totalDetections = 1 := by
  decide

/-- C4 (amended): a raw detection whose lowercased label is not in the
class-mapping table is never assigned to any canonical class — its group key
is the lowercased label itself, which is not a canonical class — but the
detection is not dropped: it forms (or joins) a per-class group keyed by its
own lowercased label. -/
theorem unmapped_label_kept (dets : List RoboPred) (d : RoboPred)
    (hmem : d ∈ dets) (h : CLASS_MAPPING (originalClassOf d) = none) :
    classNameOf d = originalClassOf d ∧
    originalClassOf d ∉ EPP_CLASSES ∧
    originalClassOf d ∈ (processDetections dets).detectionsByClass.map Prod.fst := by
  have hcn : classNameOf d = originalClassOf d := by
    unfold classNameOf
    rw [h]
    rfl
  refine ⟨hcn, ?_, ?_⟩
  · intro hin
    have hs := List.all_eq_true.mp epp_classes_mapped _ hin
    rw [h] at hs
    exact Bool.noConfusion hs
  · have hk := mem_keys_groupFold dets [] d hmem
    rw [hcn] at hk
    show originalClassOf d ∈ (detectionsByClassOf dets).map Prod.fst
    rw [keys_detectionsByClass]
    exact hk

/-- Witness for the amended C4 theorem at the concrete unmapped detection. -/
theorem unmapped_label_kept_witness :
    classNameOf c4Dog = originalClassOf c4Dog ∧
    originalClassOf c4Dog ∉ EPP_CLASSES ∧
    originalClassOf c4Dog ∈ (processDetections [c4Dog]).detectionsByClass.map Prod.fst :=
  unmapped_label_kept [c4Dog] c4Dog (List.mem_cons_self _ _) (by decide)

/-! ### C10: normalisation is case-insensitive and idempotent -/

/-- C10: for all string labels, normalisation is case-insensitive (two
labels with the same lower-casing normalise identically) and idempotent
(normalising a normalisation result returns it unchanged). -/
theorem normalize_case_insensitive_idempotent :
    (∀ a b : String, toLowerStr a = toLowerStr b → normalizeLabel a = normalizeLabel b) ∧
    (∀ l : String, normalizeLabel (normalizeLabel l) = normalizeLabel l) := by
  constructor
  · intro a b h
    unfold normalizeLabel
    rw [h]
  · intro l
    cases h : CLASS_MAPPING (toLowerStr l) with
    | none =>
      have h1 : normalizeLabel l = toLowerStr l := by
        unfold normalizeLabel
        rw [h]
        rfl
      rw [h1]
      unfold normalizeLabel
      rw [toLowerStr_idem, h]
      rfl
    | some v =>
      have h1 : normalizeLabel l = v := by
        unfold normalizeLabel
        rw [h]
        rfl
      rw [h1]
      exact classMapping_value_fixed _ _ h

/-- Upper-case spelling of a backend label. -/
def exUpperLabel : String := "HELMETS"

/-- Mixed-case spelling of the same backend label. -/
def exMixedLabel : String := "Helmets"

/-- Mixed-case spelling of another backend label. -/
def exGlassLabel : String := "Glass"

/-- Witness for the C10 theorem at concrete labels. -/
theorem normalize_case_insensitive_idempotent_witness :
    normalizeLabel exUpperLabel = normalizeLabel exMixedLabel ∧
    normalizeLabel (normalizeLabel exGlassLabel) = normalizeLabel exGlassLabel :=
  ⟨normalize_case_insensitive_idempotent.1 exUpperLabel exMixedLabel (by decide),
   normalize_case_insensitive_idempotent.2 exGlassLabel⟩

/-! ### C3: the validation verdict -/

/-- Example frame containing one detection of each canonical class. -/
def c3CompleteDets : List RoboPred :=
  EPP_CLASSES.map (fun c =>
    { cls := c, class_name := "", confidence := 9/10, x := 0, y := 0, width := 1, height := 1 })

/-- Validation of the complete example frame. -/
def c3Validation : Validation :=
  validateCompletePPE (processDetections c3CompleteDets).detectionsByClass

/-- C3 counterexample: on a frame detecting all eight canonical classes the
completion rate is 100 (a percentage), which is neither equal to
|detected| / |required| = 1 nor bounded by 1, refuting the claim that
completionRate equals the ratio and lies in the unit interval. -/
theorem validate_rate_not_unit_interval_cex :
    c3Validation.isComplete = true ∧
    c3Validation.completionRate = 100 ∧
    ¬(c3Validation.completionRate ≤ 1) ∧
    c3Validation.completionRate
      ≠ (c3Validation.detected.length : ℚ) / (EPP_CLASSES.length : ℚ) := by
  have hd : c3Validation.detected = EPP_CLASSES := by decide
  have hrate : c3Validation.completionRate
      = (c3Validation.detected.length : ℚ) / (EPP_CLASSES.length : ℚ) * 100 := rfl
  rw [hd] at hrate
  have h8 : (EPP_CLASSES.length : ℚ) = 8 := by norm_num [EPP_CLASSES]
  rw [h8] at hrate
  have h100 : c3Validation.completionRate = 100 := by
    rw [hrate]
    norm_num
  refine ⟨by decide, h100, ?_, ?_⟩
  · rw [h100]
    norm_num
  · rw [h100, hd, h8]
    norm_num

/-- C3 (amended): for every aggregation input, isComplete holds iff missing
is empty, and completionRate equals |detected| / |required| × 100 — a
percentage, not a unit-interval fraction. It is always nonnegative, and it
is at most 100 whenever the detected keys are distinct canonical classes
(unmapped group keys can push it above 100). -/
theorem validateCompletePPE_spec (dbc : List (String × ClassGroup)) :
    ((validateCompletePPE dbc).isComplete = true ↔ (validateCompletePPE dbc).missing = []) ∧
    (validateCompletePPE dbc).completionRate
      = ((dbc.map Prod.fst).length : ℚ) / (EPP_CLASSES.length : ℚ) * 100 ∧
    0 ≤ (validateCompletePPE dbc).completionRate ∧
    ((dbc.map Prod.fst).Nodup → (∀ k ∈ dbc.map Prod.fst, k ∈ EPP_CLASSES) →
      (validateCompletePPE dbc).completionRate ≤ 100) := by
  refine ⟨?_, rfl, ?_, ?_⟩
  · simp [validateCompletePPE, List.length_eq_zero]
  · show (0 : ℚ) ≤ ((dbc.map Prod.fst).length : ℚ) / (EPP_CLASSES.length : ℚ) * 100
    positivity
  · intro hnd hsub
    have hfin : (dbc.map Prod.fst).toFinset ⊆ EPP_CLASSES.toFinset := by
      intro x hx
      rw [List.mem_toFinset] at hx ⊢
      exact hsub x hx
    have hlen : (dbc.map Prod.fst).length ≤ EPP_CLASSES.length :=
      calc (dbc.map Prod.fst).length = (dbc.map Prod.fst).toFinset.card :=
            (List.toFinset_card_of_nodup hnd).symm
        _ ≤ EPP_CLASSES.toFinset.card := Finset.card_le_card hfin
        _ ≤ EPP_CLASSES.length := List.toFinset_card_le _
    show ((dbc.map Prod.fst).length : ℚ) / (EPP_CLASSES.length : ℚ) * 100 ≤ 100
    have hq : ((dbc.map Prod.fst).length : ℚ) ≤ (EPP_CLASSES.length : ℚ) := by
      exact_mod_cast hlen
    have h8 : (EPP_CLASSES.length : ℚ) = 8 := by norm_num [EPP_CLASSES]
    rw [h8] at hq ⊢
    linarith

/-- Example frame with a single helmet detection. -/
def c3Helmet : RoboPred :=
  { cls := "helmet", class_name := "", confidence := 4/5, x := 0, y := 0, width := 1, height := 1 }

/-- Witness for the amended C3 theorem at a concrete aggregation input. -/
theorem validateCompletePPE_spec_witness :
    (validateCompletePPE (processDetections [c3Helmet]).detectionsByClass).completionRate ≤ 100 ∧
    ((validateCompletePPE (processDetections [c3Helmet]).detectionsByClass).isComplete = true ↔
      (validateCompletePPE (processDetections [c3Helmet]).detectionsByClass).missing = []) :=
  ⟨(validateCompletePPE_spec (processDetections [c3Helmet]).detectionsByClass).2.2.2
      (by decide) (by decide),
   (validateCompletePPE_spec (processDetections [c3Helmet]).detectionsByClass).1⟩

/-! ## Dashboard session manager (`Dashboard.tsx`)

The React component state (useState hooks and useRef cells) is modelled as
one record, the DOM `setTimeout` slot `detectionIntervalRef` as an `Option`
timer holding which scheduling loop armed it and with which delay, and the
session's observable side effects (camera capture, frame send, alert
trigger/reset) as an effect list. -/

/-- The `ppe_status` object of a detection response (`PPEStatus` in
`ppeService.ts`). -/
structure PPEStatusT where
  casco : Bool
  lentes : Bool
  guantes : Bool
  botas : Bool
  chaleco : Bool
  camisa : Bool
  pantalon : Bool
  barbijo : Bool
  epp_completo : Bool
deriving DecidableEq

/-- The all-false neutral status installed when no person is in frame. -/
def allFalseStatus : PPEStatusT :=
  { casco := false, lentes := false, guantes := false, botas := false,
    chaleco := false, camisa := false, pantalon := false, barbijo := false,
    epp_completo := false }

/-- One detection entry of a detection response. -/
structure Detection where
  cls : String
  confidence : ℚ
  bbox : List ℚ
deriving DecidableEq

/-- One body-region entry of a detection response. -/
structure BodyRegion where
  name : String
  bbox : List ℚ
  keypoints : List (List ℚ)
  confidence : ℚ
deriving DecidableEq

/-- The `DetectionResponse` contract of `ppeService.ts`: `ppe_status`,
`detections` and `is_compliant` are required, the rest optional. An absent
optional numeric field and a zero value are both falsy, so image dimensions
are `Option ℕ` with 0 treated as absent by the handler. -/
structure DetectionResponse where
  ppe_status : PPEStatusT
  detections : List Detection
  is_compliant : Bool
  has_person : Option Bool
  body_regions : Option (List BodyRegion)
  image_width : Option ℕ
  image_height : Option ℕ
deriving DecidableEq

/-- Key/value entries of a `ppe_status` object in interface field order
(the order `Object.entries` yields). -/
def ppeEntries (st : PPEStatusT) : List (String × Bool) :=
  [ ("casco", st.casco), ("lentes", st.lentes), ("guantes", st.guantes)
  , ("botas", st.botas), ("chaleco", st.chaleco), ("camisa", st.camisa)
  , ("pantalon", st.pantalon), ("barbijo", st.barbijo)
  , ("epp_completo", st.epp_completo) ]

/-- The Spanish display labels used by `crearRegistroDesdeDeteccion`. -/
def labelFor (k : String) : String :=
  (lookupTable
    [ ("casco", "Casco"), ("lentes", "Lentes"), ("guantes", "Guantes")
    , ("botas", "Botas"), ("chaleco", "Chaleco"), ("camisa", "Camisa")
    , ("pantalon", "Pantalón"), ("barbijo", "Barbijo") ] k).getD k

/-- One history record (`DetectionRecord` in `Dashboard.tsx`). The spec
fields id, fecha and hora are all renderings of the creation instant,
modelled as one timestamp. `estado` is true for Completo. -/
structure DetectionRecord where
  time : ℕ
  estado : Bool
  faltantes : String
  ppeStatus : PPEStatusT
deriving DecidableEq

/-- The `crearRegistroDesdeDeteccion` function of `Dashboard.tsx`. -/
def crearRegistroDesdeDeteccion (now : ℕ) (data : DetectionResponse) : DetectionRecord :=
  let faltantesArray :=
    ((ppeEntries data.ppe_status).filter
      (fun e => if e.1 = "epp_completo" then false else !e.2)).map (fun e => labelFor e.1)
  let faltantesTexto :=
    if data.is_compliant || faltantesArray.isEmpty then "Ninguno"
    else String.intercalate (", ") faltantesArray
  { time := now
  , estado := data.is_compliant
  , faltantes := faltantesTexto
  , ppeStatus := data.ppe_status }

/-- Which scheduling loop armed the pending timeout: the loop created by
`startDetection` (which re-checks the pause gate) or the one created by
`handleResume` (which does not). -/
inductive LoopKind where
  | startLoop
  | resumeLoop
deriving DecidableEq

/-- The pending `setTimeout` of `detectionIntervalRef`: the arming loop and
the scheduled delay in milliseconds. -/
structure TimerArm where
  loop : LoopKind
  delay : ℕ
deriving DecidableEq

/-- The dashboard session state: every useState hook and useRef cell of the
component that the session logic reads or writes. `cameraAvail` models
whether `cameraFeedRef.current` is non-null. -/
structure DashState where
  ppeStatus : PPEStatusT
  isDetecting : Bool
  connected : Bool
  records : List DetectionRecord
  cameraActive : Bool
  hasDetection : Bool
  detections : List Detection
  bodyRegions : List BodyRegion
  processedImageSize : Option (ℕ × ℕ)
  modalOpen : Bool
  paused : Bool
  timer : Option TimerArm
  processing : Bool
  lastSendTime : ℕ
  interval : ℕ
  latHist : List ℕ
  cameraAvail : Bool
deriving DecidableEq

/-- The configuration slice the session logic reads. -/
structure Config where
  maxRecords : ℕ
deriving DecidableEq

/-- Observable side effects of one transition: a camera capture, a frame
sent over the socket, an alert fired, or the alert-repeat state reset. -/
inductive Effect where
  | captureFrame
  | sendFrame
  | alertTrigger
  | alertReset
deriving DecidableEq

/-- Lines 208-211 of `Dashboard.tsx`: push the new latency sample and drop
the oldest once the window exceeds 10. -/
def pushLatency (hist : List ℕ) (lat : ℕ) : List ℕ :=
  if 10 < (hist ++ [lat]).length then (hist ++ [lat]).drop 1 else hist ++ [lat]

/-- Lines 213-225 of `Dashboard.tsx`: once 5 samples exist, map the mean
latency to the discrete interval tier; otherwise keep the interval. -/
def retier (hist : List ℕ) (cur : ℕ) : ℕ :=
  if 5 ≤ hist.length then
    if (hist.sum : ℚ) / (hist.length : ℚ) < 300 then 1000
    else if (hist.sum : ℚ) / (hist.length : ℚ) < 600 then 1500
    else 2500
  else cur

/-- One `setDetectionRecords` functional update: prepend the new record and
truncate to the configured bound. -/
def appendRecord (cfg : Config) (r : DetectionRecord) (prev : List DetectionRecord) :
    List DetectionRecord :=
  r :: prev.take (cfg.maxRecords - 1)

/-- The state written by the main path of `handleDetectionResponse`
(lines 208-270) before the compliance branch: latency sample pushed,
interval retiered, response payload installed, and the new history record
appended by the two identical `setDetectionRecords` updates of the
source. -/
def validUpdatedState (cfg : Config) (now : ℕ) (s : DashState)
    (data : DetectionResponse) : DashState :=
  { s with
      latHist := pushLatency s.latHist (now - s.lastSendTime)
    , interval := retier (pushLatency s.latHist (now - s.lastSendTime)) s.interval
    , ppeStatus := data.ppe_status
    , detections := data.detections
    , bodyRegions := data.body_regions.getD []
    , processedImageSize :=
        match data.image_width, data.image_height with
        | some w, some h => if w ≠ 0 ∧ h ≠ 0 then some (w, h) else s.processedImageSize
        | _, _ => s.processedImageSize
    , isDetecting := false
    , processing := false
    , hasDetection := data.has_person.getD false
    , records :=
        appendRecord cfg (crearRegistroDesdeDeteccion now data)
          (appendRecord cfg (crearRegistroDesdeDeteccion now data) s.records) }

/-- The compliance branch of `handleDetectionResponse` (lines 272-301): a
non-compliant verdict fires the alert, pauses the gate, opens the safety
modal and cancels the pending capture timeout; a compliant one resets the
alert-repeat state. -/
def handleValidResponse (cfg : Config) (now : ℕ) (s : DashState)
    (data : DetectionResponse) : DashState × List Effect :=
  if data.is_compliant then
    (validUpdatedState cfg now s data, [Effect.alertReset])
  else
    ({ validUpdatedState cfg now s data with
        paused := true, modalOpen := true, timer := none }, [Effect.alertTrigger])

/-- The `handleDetectionResponse` callback. The guard on a missing
`ppe_status` (line 180) is vacuous for a well-typed `DetectionResponse` and
is therefore not a branch here; the `has_person === false` early return
(lines 187-206) is. -/
def handleDetectionResponse (cfg : Config) (now : ℕ) (s : DashState)
    (data : DetectionResponse) : DashState × List Effect :=
  if data.has_person = some false then
    ({ s with
        ppeStatus := allFalseStatus
      , detections := []
      , bodyRegions := []
      , hasDetection := false
      , isDetecting := false
      , processing := false }, [])
  else
    handleValidResponse cfg now s data

/-- The capture attempt shared by both scheduling loops: skipped when a
request is in flight; otherwise the processing flags are set, the send
instant recorded, and — when the camera produced a frame — the frame is
captured and sent. -/
def captureAttempt (now : ℕ) (captureOk : Bool) (s : DashState) : DashState × List Effect :=
  if ¬s.processing then
    if captureOk then
      ({ s with processing := true, isDetecting := true, lastSendTime := now },
        [Effect.captureFrame, Effect.sendFrame])
    else
      ({ s with processing := false, isDetecting := false, lastSendTime := now }, [])
  else (s, [])

/-- One firing of the timeout armed by `startDetection`'s
`scheduleNextDetection` (lines 351-377): the timer is consumed, the guard
re-checks camera, connection and the pause gate, a capture is attempted
when no request is in flight, and the loop re-arms itself unless paused. -/
def startLoopTick (now : ℕ) (captureOk : Bool) (s : DashState) : DashState × List Effect :=
  if ¬s.cameraAvail ∨ ¬s.connected ∨ s.paused then
    ({ s with timer := none }, [])
  else
    if ¬s.paused then
      ({ (captureAttempt now captureOk s).1 with
          timer := some { loop := LoopKind.startLoop, delay := s.interval } },
        (captureAttempt now captureOk s).2)
    else
      ({ (captureAttempt now captureOk s).1 with timer := none },
        (captureAttempt now captureOk s).2)

/-- One firing of the timeout armed by `handleResume`'s
`scheduleNextDetection` (lines 416-440): the guard checks only camera and
connection — not the pause gate — and the loop re-arms unconditionally. -/
def resumeLoopTick (now : ℕ) (captureOk : Bool) (s : DashState) : DashState × List Effect :=
  if ¬s.cameraAvail ∨ ¬s.connected then
    ({ s with timer := none }, [])
  else
    ({ (captureAttempt now captureOk s).1 with
        timer := some { loop := LoopKind.resumeLoop, delay := s.interval } },
      (captureAttempt now captureOk s).2)

/-- The `startDetection` handler: arms the start loop with the current
adaptive interval if camera and server are available. -/
def startDetection (s : DashState) : DashState :=
  if ¬s.cameraAvail ∨ ¬s.connected then s
  else
    { s with
        cameraActive := true
      , timer := some { loop := LoopKind.startLoop, delay := s.interval } }

/-- The `handleResume` handler: unpause, close the modal, mark the camera
active, and re-arm the resume loop with the current adaptive interval when
camera and server are available. Latency history and interval are not
touched. -/
def handleResume (s : DashState) : DashState :=
  let s0 : DashState := { s with paused := false, modalOpen := false, cameraActive := true }
  if s.cameraAvail ∧ s.connected then
    { s0 with timer := some { loop := LoopKind.resumeLoop, delay := s.interval } }
  else s0

/-- The `stopDetection` handler: cancel the pending capture, clear the
latency window and reset the interval to the 1500 ms default. -/
def stopDetection (s : DashState) : DashState :=
  { s with
      cameraActive := false
    , paused := false
    , timer := none
    , isDetecting := false
    , processing := false
    , latHist := []
    , interval := 1500 }

/-- Session events: a decoded detection response arriving, the pending
timeout firing (with whether the camera produced a frame), the main button
being pressed (it dispatches resume / stop / start on the current state,
and the safety modal's resume button is only offered while paused), and the
socket callbacks toggling the connected flag. -/
inductive Ev where
  | respond (now : ℕ) (data : DetectionResponse)
  | tick (now : ℕ) (captureOk : Bool)
  | press
  | wsOpen
  | wsClosed
deriving DecidableEq

/-- One transition of the session: `none` when the event is not enabled in
the current state (no pending timer for a tick; button disabled while
disconnected and not paused). -/
def step (cfg : Config) (s : DashState) : Ev → Option (DashState × List Effect)
  | Ev.respond now data => some (handleDetectionResponse cfg now s data)
  | Ev.tick now captureOk =>
      match s.timer with
      | none => none
      | some arm =>
          match arm.loop with
          | LoopKind.startLoop => some (startLoopTick now captureOk s)
          | LoopKind.resumeLoop => some (resumeLoopTick now captureOk s)
  | Ev.press =>
      if s.paused then some (handleResume s, [])
      else if ¬s.connected then none
      else if s.cameraActive then some (stopDetection s, [])
      else some (startDetection s, [])
  | Ev.wsOpen => some ({ s with connected := true }, [])
  | Ev.wsClosed => some ({ s with connected := false }, [])

/-- The dashboard's initial state (fresh mount, empty stored history). -/
def initState : DashState :=
  { ppeStatus := allFalseStatus
  , isDetecting := false
  , connected := false
  , records := []
  , cameraActive := false
  , hasDetection := false
  , detections := []
  , bodyRegions := []
  , processedImageSize := none
  , modalOpen := false
  , paused := false
  , timer := none
  , processing := false
  , lastSendTime := 0
  , interval := 1500
  , latHist := []
  , cameraAvail := true }

/-- Run a sequence of events from a state; events not enabled are skipped. -/
def run (cfg : Config) (s : DashState) : List Ev → DashState
  | [] => s
  | e :: es =>
      match step cfg s e with
      | none => run cfg s es
      | some (s1, _) => run cfg s1 es

/-- The gate/scheduler coupling invariant: whenever the session is paused,
no capture timeout is pending. -/
def GateInv (s : DashState) : Prop := s.paused = true → s.timer = none

/-! ### Lemmas about the session transitions -/

/-- The response handler either leaves pause flag and timer unchanged or
pauses and cancels the timer together. -/
theorem hdr_pause_timer (cfg : Config) (now : ℕ) (s : DashState) (data : DetectionResponse) :
    ((handleDetectionResponse cfg now s data).1.paused = s.paused ∧
      (handleDetectionResponse cfg now s data).1.timer = s.timer) ∨
    ((handleDetectionResponse cfg now s data).1.paused = true ∧
      (handleDetectionResponse cfg now s data).1.timer = none) := by
  unfold handleDetectionResponse
  by_cases h1 : data.has_person = some false
  · rw [if_pos h1]
    exact Or.inl ⟨rfl, rfl⟩
  · rw [if_neg h1]
    unfold handleValidResponse
    cases hc : data.is_compliant
    · rw [if_neg Bool.false_ne_true]
      exact Or.inr ⟨rfl, rfl⟩
    · rw [if_pos rfl]
      exact Or.inl ⟨rfl, rfl⟩

/-- The response handler emits only alert effects, never captures. -/
theorem hdr_effects (cfg : Config) (now : ℕ) (s : DashState) (data : DetectionResponse) :
    (handleDetectionResponse cfg now s data).2 = [] ∨
    (handleDetectionResponse cfg now s data).2 = [Effect.alertReset] ∨
    (handleDetectionResponse cfg now s data).2 = [Effect.alertTrigger] := by
  unfold handleDetectionResponse
  by_cases h1 : data.has_person = some false
  · rw [if_pos h1]
    exact Or.inl rfl
  · rw [if_neg h1]
    unfold handleValidResponse
    cases hc : data.is_compliant
    · rw [if_neg Bool.false_ne_true]
      exact Or.inr (Or.inr rfl)
    · rw [if_pos rfl]
      exact Or.inr (Or.inl rfl)

/-- The capture attempt never changes the pause flag. -/
theorem captureAttempt_paused (now : ℕ) (captureOk : Bool) (s : DashState) :
    (captureAttempt now captureOk s).1.paused = s.paused := by
  unfold captureAttempt
  split_ifs <;> rfl

/-- The start-loop tick never changes the pause flag. -/
theorem startLoopTick_paused (now : ℕ) (captureOk : Bool) (s : DashState) :
    (startLoopTick now captureOk s).1.paused = s.paused := by
  unfold startLoopTick
  split_ifs <;> first | rfl | exact captureAttempt_paused now captureOk s

/-- The resume-loop tick never changes the pause flag. -/
theorem resumeLoopTick_paused (now : ℕ) (captureOk : Bool) (s : DashState) :
    (resumeLoopTick now captureOk s).1.paused = s.paused := by
  unfold resumeLoopTick
  split_ifs <;> first | rfl | exact captureAttempt_paused now captureOk s

/-- The start-loop tick fires no capture and cancels the timer while the
gate is paused: its guard re-checks the gate. -/
theorem startLoopTick_gate_checked (now : ℕ) (captureOk : Bool) (s : DashState)
    (hp : s.paused = true) :
    startLoopTick now captureOk s = ({ s with timer := none }, []) := by
  unfold startLoopTick
  rw [if_pos (Or.inr (Or.inr hp))]

/-- Resuming always clears the pause flag. -/
theorem handleResume_paused (s : DashState) : (handleResume s).paused = false := by
  unfold handleResume
  split_ifs <;> rfl

/-- Starting leaves the pause flag unchanged. -/
theorem startDetection_paused (s : DashState) : (startDetection s).paused = s.paused := by
  unfold startDetection
  split_ifs <;> rfl

/-- Every enabled transition preserves the gate/scheduler invariant. -/
theorem step_gateInv (cfg : Config) (s : DashState) (e : Ev) (s' : DashState)
    (effs : List Effect) (hInv : GateInv s) (h : step cfg s e = some (s', effs)) :
    GateInv s' := by
  cases e with
  | respond now data =>
    simp only [step] at h
    injection h with h2
    have hfst : (handleDetectionResponse cfg now s data).1 = s' := by rw [h2]
    intro hp
    rcases hdr_pause_timer cfg now s data with ⟨hpp, hpt⟩ | ⟨hpp, hpt⟩
    · rw [← hfst] at hp ⊢
      rw [hpt]
      apply hInv
      rw [← hpp]
      exact hp
    · rw [← hfst]
      exact hpt
  | tick now captureOk =>
    simp only [step] at h
    cases ht : s.timer with
    | none =>
      rw [ht] at h
      simp at h
    | some arm =>
      have hpf : s.paused = false := by
        cases hq : s.paused
        · rfl
        · have := hInv hq
          rw [this] at ht
          exact Option.noConfusion ht
      obtain ⟨loopk, delay⟩ := arm
      rw [ht] at h
      cases loopk
      · injection h with h2
        have hfst : (startLoopTick now captureOk s).1 = s' := congrArg Prod.fst h2
        intro hp
        rw [← hfst, startLoopTick_paused, hpf] at hp
        exact Bool.noConfusion hp
      · injection h with h2
        have hfst : (resumeLoopTick now captureOk s).1 = s' := congrArg Prod.fst h2
        intro hp
        rw [← hfst, resumeLoopTick_paused, hpf] at hp
        exact Bool.noConfusion hp
  | press =>
    simp only [step] at h
    by_cases hp : s.paused = true
    · rw [if_pos hp] at h
      injection h with h2
      have hfst : handleResume s = s' := congrArg Prod.fst h2
      intro hp'
      rw [← hfst, handleResume_paused] at hp'
      exact Bool.noConfusion hp'
    · rw [if_neg hp] at h
      by_cases hcn : ¬s.connected = true
      · rw [if_pos hcn] at h
        simp at h
      · rw [if_neg hcn] at h
        by_cases hca : s.cameraActive = true
        · rw [if_pos hca] at h
          injection h with h2
          have hfst : stopDetection s = s' := congrArg Prod.fst h2
          intro hp'
          rw [← hfst]
          rfl
        · rw [if_neg hca] at h
          injection h with h2
          have hfst : startDetection s = s' := congrArg Prod.fst h2
          intro hp'
          rw [← hfst, startDetection_paused] at hp'
          exact absurd hp' hp
  | wsOpen =>
    simp only [step] at h
    injection h with h2
    have hfst : ({ s with connected := true } : DashState) = s' := congrArg Prod.fst h2
    intro hp'
    rw [← hfst] at hp' ⊢
    exact hInv hp'
  | wsClosed =>
    simp only [step] at h
    injection h with h2
    have hfst : ({ s with connected := false } : DashState) = s' := congrArg Prod.fst h2
    intro hp'
    rw [← hfst] at hp' ⊢
    exact hInv hp'

/-- The invariant holds along every event sequence. -/
theorem run_gateInv (cfg : Config) (es : List Ev) :
    ∀ s : DashState, GateInv s → GateInv (run cfg s es) := by
  induction es with
  | nil => intro s h; exact h
  | cons e es ih =>
    intro s h
    simp only [run]
    cases hstep : step cfg s e with
    | none => exact ih s h
    | some p =>
      obtain ⟨s1, effs⟩ := p
      exact ih s1 (step_gateInv cfg s e s1 effs h hstep)

/-- While the gate is paused (and the invariant holds), no enabled
transition captures or sends a frame, and every transition other than the
button press (resume) keeps the session paused with no pending timer. -/
theorem paused_step_no_capture (cfg : Config) (s : DashState) (e : Ev) (s' : DashState)
    (effs : List Effect) (hInv : GateInv s) (hp : s.paused = true)
    (h : step cfg s e = some (s', effs)) :
    Effect.captureFrame ∉ effs ∧ Effect.sendFrame ∉ effs ∧
    (e ≠ Ev.press → s'.paused = true ∧ s'.timer = none) := by
  cases e with
  | respond now data =>
    simp only [step] at h
    injection h with h2
    have hfst : (handleDetectionResponse cfg now s data).1 = s' := congrArg Prod.fst h2
    have hsnd : (handleDetectionResponse cfg now s data).2 = effs := congrArg Prod.snd h2
    refine ⟨?_, ?_, ?_⟩
    · rcases hdr_effects cfg now s data with he | he | he <;> rw [← hsnd, he] <;> simp
    · rcases hdr_effects cfg now s data with he | he | he <;> rw [← hsnd, he] <;> simp
    · intro _
      rcases hdr_pause_timer cfg now s data with ⟨hpp, hpt⟩ | ⟨hpp, hpt⟩
      · rw [← hfst]
        exact ⟨hpp.trans hp, hpt.trans (hInv hp)⟩
      · rw [← hfst]
        exact ⟨hpp, hpt⟩
  | tick now captureOk =>
    simp only [step] at h
    rw [hInv hp] at h
    simp at h
  | press =>
    simp only [step] at h
    rw [if_pos hp] at h
    injection h with h2
    have hsnd : ([] : List Effect) = effs := congrArg Prod.snd h2
    refine ⟨by rw [← hsnd]; simp, by rw [← hsnd]; simp, fun hne => absurd rfl hne⟩
  | wsOpen =>
    simp only [step] at h
    injection h with h2
    have hfst : ({ s with connected := true } : DashState) = s' := congrArg Prod.fst h2
    have hsnd : ([] : List Effect) = effs := congrArg Prod.snd h2
    refine ⟨by rw [← hsnd]; simp, by rw [← hsnd]; simp, fun _ => ?_⟩
    rw [← hfst]
    exact ⟨hp, hInv hp⟩
  | wsClosed =>
    simp only [step] at h
    injection h with h2
    have hfst : ({ s with connected := false } : DashState) = s' := congrArg Prod.fst h2
    have hsnd : ([] : List Effect) = effs := congrArg Prod.snd h2
    refine ⟨by rw [← hsnd]; simp, by rw [← hsnd]; simp, fun _ => ?_⟩
    rw [← hfst]
    exact ⟨hp, hInv hp⟩

/-! ### C1: the paused gate suppresses captures -/

/-- C1 (amended): while the gate is paused the scheduler never fires a
capture. A single non-compliant verdict with has_subject (`has_person`)
true transitions the session to Paused, cancels the pending scheduled
capture, and emits exactly the alert; the gate/scheduler invariant (paused
implies no pending timer) holds in every reachable state; while paused, no
enabled event captures or sends a frame, and every event except the resume
press leaves the session paused with no timer; the start-path scheduler
checks the gate state before every capture. (The resume-path scheduler does
not re-check the gate — see the counterexample — so the suppression is
guaranteed by the cancelled timer, not structurally by both loops.) -/
theorem paused_gate_suppresses_captures :
    (∀ (cfg : Config) (now : ℕ) (s : DashState) (data : DetectionResponse),
       data.has_person = some true → data.is_compliant = false →
       (handleDetectionResponse cfg now s data).1.paused = true ∧
       (handleDetectionResponse cfg now s data).1.timer = none ∧
       (handleDetectionResponse cfg now s data).2 = [Effect.alertTrigger]) ∧
    (∀ (cfg : Config) (es : List Ev), GateInv (run cfg initState es)) ∧
    (∀ (cfg : Config) (s : DashState) (e : Ev) (s' : DashState) (effs : List Effect),
       GateInv s → s.paused = true → step cfg s e = some (s', effs) →
       Effect.captureFrame ∉ effs ∧ Effect.sendFrame ∉ effs ∧
       (e ≠ Ev.press → s'.paused = true ∧ s'.timer = none)) ∧
    (∀ (now : ℕ) (captureOk : Bool) (s : DashState), s.paused = true →
       startLoopTick now captureOk s = ({ s with timer := none }, [])) := by
  refine ⟨?_, ?_, paused_step_no_capture, startLoopTick_gate_checked⟩
  · intro cfg now s data h1 h2
    unfold handleDetectionResponse
    rw [if_neg (by rw [h1]; simp)]
    unfold handleValidResponse
    rw [h2, if_neg Bool.false_ne_true]
    exact ⟨rfl, rfl, rfl⟩
  · intro cfg es
    exact run_gateInv cfg es initState (fun _ => rfl)

/-- Standard non-compliant response used by the C1 witness. -/
def c1Resp : DetectionResponse :=
  { ppe_status := allFalseStatus
  , detections := []
  , is_compliant := false
  , has_person := some true
  , body_regions := none
  , image_width := none
  , image_height := none }

/-- Witness for the C1 theorem: a concrete non-compliant verdict pauses the
session and cancels the timer, and a concrete paused state suppresses
capture effects. -/
theorem paused_gate_suppresses_captures_witness :
    (handleDetectionResponse { maxRecords := 50 } 5 initState c1Resp).1.paused = true ∧
    (handleDetectionResponse { maxRecords := 50 } 5 initState c1Resp).1.timer = none ∧
    GateInv (run { maxRecords := 50 } initState [Ev.wsOpen]) :=
  ⟨(paused_gate_suppresses_captures.1 { maxRecords := 50 } 5 initState c1Resp rfl rfl).1,
   (paused_gate_suppresses_captures.1 { maxRecords := 50 } 5 initState c1Resp rfl rfl).2.1,
   paused_gate_suppresses_captures.2.1 { maxRecords := 50 } [Ev.wsOpen]⟩

/-- A paused state with a pending resume-loop timeout (ruled out in
reachable states by the invariant, but exhibiting the structure of the
resume-path guard). -/
def c1PausedState : DashState :=
  { initState with
      paused := true
    , connected := true
    , timer := some { loop := LoopKind.resumeLoop, delay := 1500 } }

/-- C1 counterexample: the resume-path scheduler does NOT check the gate
state before capturing — in a paused state with a pending resume-loop
timeout, the tick captures and sends a frame, refuting the sub-claim that
the scheduler checks the gate state before every capture. -/
theorem resume_tick_ignores_gate_cex :
    c1PausedState.paused = true ∧
    (step { maxRecords := 50 } c1PausedState (Ev.tick 0 true)).map Prod.snd
      = some [Effect.captureFrame, Effect.sendFrame] := by
  exact ⟨rfl, rfl⟩

/-! ### C2: absent subject never pauses -/

/-- C2: a detection response reporting `has_person = false` installs the
neutral all-false status, leaves pause flag, modal, history records,
pending timer, latency window and interval unchanged, and emits no
effect (in particular no alert). -/
theorem no_person_never_pauses (cfg : Config) (now : ℕ) (s : DashState)
    (data : DetectionResponse) (h : data.has_person = some false) :
    (handleDetectionResponse cfg now s data).1.ppeStatus = allFalseStatus ∧
    (handleDetectionResponse cfg now s data).1.paused = s.paused ∧
    (handleDetectionResponse cfg now s data).1.modalOpen = s.modalOpen ∧
    (handleDetectionResponse cfg now s data).1.records = s.records ∧
    (handleDetectionResponse cfg now s data).1.timer = s.timer ∧
    (handleDetectionResponse cfg now s data).1.latHist = s.latHist ∧
    (handleDetectionResponse cfg now s data).1.interval = s.interval ∧
    (handleDetectionResponse cfg now s data).2 = [] := by
  unfold handleDetectionResponse
  rw [if_pos h]
  exact ⟨rfl, rfl, rfl, rfl, rfl, rfl, rfl, rfl⟩

/-- Empty-scene response used by the C2 witness. -/
def c2Resp : DetectionResponse :=
  { ppe_status := allFalseStatus
  , detections := []
  , is_compliant := false
  , has_person := some false
  , body_regions := none
  , image_width := none
  , image_height := none }

/-- Witness for the C2 theorem at a concrete empty-scene response. -/
theorem no_person_never_pauses_witness :
    (handleDetectionResponse { maxRecords := 50 } 3 initState c2Resp).1.paused
        = initState.paused ∧
    (handleDetectionResponse { maxRecords := 50 } 3 initState c2Resp).1.records
        = initState.records ∧
    (handleDetectionResponse { maxRecords := 50 } 3 initState c2Resp).2 = [] :=
  ⟨(no_person_never_pauses { maxRecords := 50 } 3 initState c2Resp rfl).2.1,
   (no_person_never_pauses { maxRecords := 50 } 3 initState c2Resp rfl).2.2.2.1,
   (no_person_never_pauses { maxRecords := 50 } 3 initState c2Resp rfl).2.2.2.2.2.2.2⟩

/-! ### C5: the adaptive interval -/

/-- Consecutive latency samples processed from a fresh session: each
response pushes its round-trip sample and retiers the interval, starting
from the empty window and the 1500 ms default. -/
def processLatencies (samples : List ℕ) : List ℕ × ℕ :=
  samples.foldl (fun p lat => (pushLatency p.1 lat, retier (pushLatency p.1 lat) p.2)) ([], 1500)

/-- Processing fewer than five samples never leaves the default tier. -/
theorem processLatencies_aux (samples : List ℕ) :
    ∀ (hist : List ℕ) (itv : ℕ), hist.length + samples.length < 5 →
      samples.foldl (fun p lat => (pushLatency p.1 lat, retier (pushLatency p.1 lat) p.2))
          (hist, itv)
        = (hist ++ samples, itv) := by
  induction samples with
  | nil => intro hist itv _; simp
  | cons lat ls ih =>
    intro hist itv hlen
    have hlen1 : hist.length + 1 + ls.length < 5 := by
      simp only [List.length_cons] at hlen
      omega
    have hpush : pushLatency hist lat = hist ++ [lat] := by
      unfold pushLatency
      rw [if_neg (by simp; omega)]
    have hret : retier (hist ++ [lat]) itv = itv := by
      unfold retier
      rw [if_neg (by simp; omega)]
    simp only [List.foldl_cons, hpush, hret]
    rw [ih (hist ++ [lat]) itv (by simp; omega)]
    simp

/-- C5: the latency window keeps at most the 10 most recent samples; fewer
than 5 samples always yield the 1500 ms default regardless of sample
values; with at least 5 samples the interval is the tier of the window
mean (below 300 ms: 1000 ms; in [300, 600): 1500 ms; at least 600 ms:
2500 ms); and the response handler updates window and interval exactly this
way on every response with a subject. -/
theorem adaptive_interval_spec :
    (∀ (hist : List ℕ) (lat : ℕ), hist.length ≤ 10 →
       pushLatency hist lat = (hist ++ [lat]).drop (hist.length + 1 - 10) ∧
       (pushLatency hist lat).length ≤ 10) ∧
    (∀ samples : List ℕ, samples.length < 5 → processLatencies samples = (samples, 1500)) ∧
    (∀ (hist : List ℕ) (cur : ℕ), 5 ≤ hist.length →
       (((hist.sum : ℚ) / (hist.length : ℚ) < 300 → retier hist cur = 1000) ∧
        (300 ≤ (hist.sum : ℚ) / (hist.length : ℚ) →
          (hist.sum : ℚ) / (hist.length : ℚ) < 600 → retier hist cur = 1500) ∧
        (600 ≤ (hist.sum : ℚ) / (hist.length : ℚ) → retier hist cur = 2500))) ∧
    (∀ (cfg : Config) (now : ℕ) (s : DashState) (data : DetectionResponse),
       data.has_person ≠ some false →
       (handleDetectionResponse cfg now s data).1.latHist
           = pushLatency s.latHist (now - s.lastSendTime) ∧
       (handleDetectionResponse cfg now s data).1.interval
           = retier (pushLatency s.latHist (now - s.lastSendTime)) s.interval) := by
  refine ⟨?_, ?_, ?_, ?_⟩
  · intro hist lat h10
    unfold pushLatency
    have hlen : (hist ++ [lat]).length = hist.length + 1 := by simp
    rw [hlen]
    by_cases h : 10 < hist.length + 1
    · rw [if_pos h]
      have h1 : hist.length + 1 - 10 = 1 := by omega
      rw [h1]
      refine ⟨rfl, ?_⟩
      simp only [List.length_drop, hlen]
      omega
    · rw [if_neg h]
      have h0 : hist.length + 1 - 10 = 0 := by omega
      rw [h0, List.drop_zero]
      refine ⟨rfl, ?_⟩
      rw [hlen]
      omega
  · intro samples hlt
    unfold processLatencies
    rw [processLatencies_aux samples [] 1500 (by simpa using hlt)]
    simp
  · intro hist cur h5
    unfold retier
    rw [if_pos h5]
    refine ⟨?_, ?_, ?_⟩
    · intro hlt
      rw [if_pos hlt]
    · intro hge hlt
      rw [if_neg (not_lt.mpr hge), if_pos hlt]
    · intro hge
      rw [if_neg (not_lt.mpr (le_trans (by norm_num) hge)), if_neg (not_lt.mpr hge)]
  · intro cfg now s data h
    unfold handleDetectionResponse
    rw [if_neg h]
    unfold handleValidResponse
    cases hc : data.is_compliant
    · rw [if_neg Bool.false_ne_true]
      exact ⟨rfl, rfl⟩
    · rw [if_pos rfl]
      exact ⟨rfl, rfl⟩

/-- Witness for the C5 theorem at concrete latency windows: a fast window
drops to 1000 ms, a medium one keeps 1500 ms, a slow one grows to 2500 ms,
and two samples alone leave the default. -/
theorem adaptive_interval_spec_witness :
    retier [250, 250, 250, 250, 250] 1500 = 1000 ∧
    retier [450, 450, 450, 450, 450] 1000 = 1500 ∧
    retier [900, 900, 900, 900, 900] 1500 = 2500 ∧
    processLatencies [40, 9000] = ([40, 9000], 1500) ∧
    pushLatency [1, 2, 3] 4 = [1, 2, 3, 4] := by
  refine ⟨?_, ?_, ?_, ?_, ?_⟩
  · apply (adaptive_interval_spec.2.2.1 [250, 250, 250, 250, 250] 1500 (by norm_num)).1
    norm_num
  · apply (adaptive_interval_spec.2.2.1 [450, 450, 450, 450, 450] 1000 (by norm_num)).2.1 <;>
      norm_num
  · apply (adaptive_interval_spec.2.2.1 [900, 900, 900, 900, 900] 1500 (by norm_num)).2.2
    norm_num
  · exact adaptive_interval_spec.2.1 [40, 9000] (by norm_num)
  · have h := (adaptive_interval_spec.1 [1, 2, 3] 4 (by norm_num)).1
    simpa using h

/-! ### C8: resume re-arms with the adaptive interval -/

/-- C8: resuming from pause re-arms the scheduler with the timer delay
equal to the current adaptive interval (whatever its value, not the 1500 ms
default), leaves the latency window and the interval unchanged, and clears
the pause flag. -/
theorem resume_uses_adaptive_interval (s : DashState) (hc : s.cameraAvail = true)
    (hw : s.connected = true) :
    (handleResume s).timer = some { loop := LoopKind.resumeLoop, delay := s.interval } ∧
    (handleResume s).latHist = s.latHist ∧
    (handleResume s).interval = s.interval ∧
    (handleResume s).paused = false := by
  unfold handleResume
  rw [if_pos (⟨hc, hw⟩ : s.cameraAvail = true ∧ s.connected = true)]
  exact ⟨rfl, rfl, rfl, rfl⟩

/-- A paused session whose adaptive interval has been retiered to 2500 ms. -/
def c8State : DashState :=
  { initState with
      connected := true
    , paused := true
    , interval := 2500
    , latHist := [700, 700, 700, 700, 700] }

/-- Witness for the C8 theorem: resuming the concrete 2500 ms session arms
the timer at 2500 ms — which differs from the 1500 ms default — and keeps
the latency window. -/
theorem resume_uses_adaptive_interval_witness :
    (handleResume c8State).timer = some { loop := LoopKind.resumeLoop, delay := 2500 } ∧
    (handleResume c8State).latHist = [700, 700, 700, 700, 700] ∧
    (2500 : ℕ) ≠ 1500 :=
  ⟨(resume_uses_adaptive_interval c8State rfl rfl).1,
   (resume_uses_adaptive_interval c8State rfl rfl).2.1,
   by decide⟩

/-! ### C9: the history append -/

/-- A fully compliant verdict response (subject present). -/
def c9Resp : DetectionResponse :=
  { ppe_status :=
      { casco := true, lentes := true, guantes := true, botas := true, chaleco := true,
        camisa := true, pantalon := true, barbijo := true, epp_completo := true }
  , detections := []
  , is_compliant := true
  , has_person := some true
  , body_regions := none
  , image_width := none
  , image_height := none }

/-- C9 (code bug): the source contains two identical `setDetectionRecords`
updates (lines 251-259 and 262-270 of `Dashboard.tsx`), so one completed
verdict appends the history record twice — the handler run on a fresh
session with one valid subject-present response leaves two copies of the
record in the history instead of exactly one. -/
theorem history_record_appended_twice :
    (handleDetectionResponse { maxRecords := 50 } 7 initState c9Resp).1.records
      = [crearRegistroDesdeDeteccion 7 c9Resp, crearRegistroDesdeDeteccion 7 c9Resp] ∧
    (handleDetectionResponse { maxRecords := 50 } 7 initState c9Resp).1.records.length = 2 := by
  exact ⟨rfl, rfl⟩

/-! ## WebSocket transport (`PPEWebSocket` in `ppeService.ts`)

The browser WebSocket handle (`this.ws`) and its `readyState` are modelled
as an `Option ReadyState`; the DOM timers (heartbeat interval, stability
timeout, scheduled reconnects) as flags and returned delays. -/

/-- The `readyState` of a browser WebSocket. -/
inductive ReadyState where
  | connecting
  | opened
  | closing
  | closed
deriving DecidableEq

/-- State of a `PPEWebSocket` instance. -/
structure WSState where
  ws : Option ReadyState
  reconnectAttempts : ℕ
  currentDelayIndex : ℕ
  manual : Bool
  heartbeatOn : Bool
  stableTimerOn : Bool
deriving DecidableEq

/-- The pre-enumerated backoff ladder `reconnectDelays` (milliseconds). -/
def reconnectDelays : List ℕ := [2000, 5000, 10000, 30000]

/-- The stability window after which backoff state resets (5 minutes). -/
def stabilityWindowMs : ℕ := 5 * 60 * 1000

/-- Transport effects observable from one operation. -/
inductive WSEffect where
  | openSocket
  | frameSent
  | rejectOversized
deriving DecidableEq

/-- The `connect()` method: clears the manual flag and opens a fresh
socket (its asynchronous open/close callbacks arrive as separate events). -/
def wsConnect (s : WSState) : WSState × List WSEffect :=
  ({ s with manual := false, ws := some ReadyState.connecting }, [WSEffect.openSocket])

/-- The `onopen` callback: record the open socket, start the heartbeat and
the stability timer. -/
def wsHandleOpen (s : WSState) : WSState :=
  { s with ws := some ReadyState.opened, heartbeatOn := true, stableTimerOn := true }

/-- The `attemptReconnect()` method: count the attempt, schedule a
reconnect after the delay at the current ladder index, and advance the
index unless it already points at the last rung. Returns the scheduled
delay. -/
def attemptReconnect (s : WSState) : WSState × ℕ :=
  ({ s with
      reconnectAttempts := s.reconnectAttempts + 1
    , currentDelayIndex :=
        if s.currentDelayIndex < reconnectDelays.length - 1 then s.currentDelayIndex + 1
        else s.currentDelayIndex },
    reconnectDelays.getD s.currentDelayIndex 0)

/-- The `onclose` callback: stop both timers; on a non-manual closure
schedule a reconnect (returning `some delay`), on a manual one do
nothing. The close code is interpreted only for logging. -/
def wsHandleClose (_code : ℕ) (s : WSState) : WSState × Option ℕ :=
  let s1 : WSState :=
    { s with ws := some ReadyState.closed, heartbeatOn := false, stableTimerOn := false }
  if s.manual then (s1, none)
  else ((attemptReconnect s1).1, some (attemptReconnect s1).2)

/-- The stability timeout firing after `stabilityWindowMs` of uninterrupted
connection: reset all backoff state. -/
def stableTimerFire (s : WSState) : WSState :=
  { s with reconnectAttempts := 0, currentDelayIndex := 0 }

/-- The `disconnect()` method: mark the closure manual, stop the timers,
close and drop the socket, and reset the backoff state. No reconnect is
scheduled. -/
def wsDisconnect (s : WSState) : WSState :=
  { s with
      manual := true
    , heartbeatOn := false
    , stableTimerOn := false
    , ws := none
    , reconnectAttempts := 0
    , currentDelayIndex := 0 }

/-- The `send()` method: with no socket, or a closing/closed one, a
non-manual state re-connects and nothing is sent; while connecting nothing
at all happens; on an open socket an oversized frame (image data above
5000 KB) is rejected locally, otherwise the frame is sent. (The `try`
around the actual send models a successful transmission.) -/
def wsSend (s : WSState) (imageData : String) : WSState × List WSEffect :=
  match s.ws with
  | none => if s.manual then (s, []) else wsConnect s
  | some ReadyState.connecting => (s, [])
  | some ReadyState.closing => if s.manual then (s, []) else wsConnect s
  | some ReadyState.closed => if s.manual then (s, []) else wsConnect s
  | some ReadyState.opened =>
      if (imageData.length : ℚ) / 1024 > 5000 then (s, [WSEffect.rejectOversized])
      else (s, [WSEffect.frameSent])

/-- Delays scheduled by `n` consecutive abnormal (non-manual) closures. -/
def closeDelays (s : WSState) : ℕ → List ℕ
  | 0 => []
  | n + 1 =>
      match (wsHandleClose 1006 s).2 with
      | some d => d :: closeDelays (wsHandleClose 1006 s).1 n
      | none => []

/-- Unfolding of one abnormal closure in the delay iteration. -/
theorem closeDelays_succ (s : WSState) (n : ℕ) (d : ℕ)
    (h : (wsHandleClose 1006 s).2 = some d) :
    closeDelays s (n + 1) = d :: closeDelays (wsHandleClose 1006 s).1 n := by
  conv_lhs => unfold closeDelays
  rw [h]

/-- Closed form of the backoff ladder: consecutive abnormal closures take
the delays at indices `idx, idx+1, …` capped at the last rung. -/
theorem closeDelays_closed_form (n : ℕ) :
    ∀ s : WSState, s.manual = false → s.currentDelayIndex ≤ 3 →
      closeDelays s n
        = (List.range n).map
            (fun k => reconnectDelays.getD (min (s.currentDelayIndex + k) 3) 0) := by
  induction n with
  | zero => intro s _ _; rfl
  | succ n ih =>
    intro s hm hidx
    have hclose : (wsHandleClose 1006 s).2 = some (reconnectDelays.getD s.currentDelayIndex 0) := by
      unfold wsHandleClose
      rw [hm, if_neg Bool.false_ne_true]
      rfl
    have hstate1 : (wsHandleClose 1006 s).1.manual = false := by
      unfold wsHandleClose
      rw [hm, if_neg Bool.false_ne_true]
      rfl
    have hstate2 : (wsHandleClose 1006 s).1.currentDelayIndex
        = if s.currentDelayIndex < 3 then s.currentDelayIndex + 1 else s.currentDelayIndex := by
      unfold wsHandleClose
      rw [hm, if_neg Bool.false_ne_true]
      rfl
    have hidx1 : (wsHandleClose 1006 s).1.currentDelayIndex ≤ 3 := by
      rw [hstate2]
      split_ifs <;> omega
    rw [closeDelays_succ s n _ hclose]
    rw [ih (wsHandleClose 1006 s).1 hstate1 hidx1]
    rw [List.range_succ_eq_map, List.map_cons, List.map_map]
    congr 1
    · have hmin : min (s.currentDelayIndex + 0) 3 = s.currentDelayIndex := by omega
      rw [hmin]
    · apply List.map_congr_left
      intro k _
      have harg : min ((wsHandleClose 1006 s).1.currentDelayIndex + k) 3
          = min (s.currentDelayIndex + Nat.succ k) 3 := by
        rw [hstate2]
        split_ifs <;> omega
      simp only [Function.comp]
      rw [harg]

/-- C6: consecutive non-manual closures schedule reconnects along the
ladder 2 s, 5 s, 10 s, 30 s, with the last rung repeating; the stability
timeout (which fires after the connection has stayed open for the 5-minute
window) resets the backoff so that the next scheduled delay is 2 s again;
and a manual disconnect resets all backoff state immediately, after which
the closure handler schedules no reconnect. -/
theorem reconnect_backoff_spec :
    (∀ (n : ℕ) (s : WSState), s.manual = false → s.currentDelayIndex = 0 →
       closeDelays s n = (List.range n).map (fun k => reconnectDelays.getD (min k 3) 0)) ∧
    (∀ s : WSState, (stableTimerFire s).currentDelayIndex = 0 ∧
       (stableTimerFire s).reconnectAttempts = 0 ∧
       (attemptReconnect (stableTimerFire s)).2 = 2000) ∧
    (∀ s : WSState, (wsDisconnect s).manual = true ∧
       (wsDisconnect s).currentDelayIndex = 0 ∧
       (wsDisconnect s).reconnectAttempts = 0 ∧
       (wsHandleClose 1000 (wsDisconnect s)).2 = none) := by
  refine ⟨?_, ?_, ?_⟩
  · intro n s hm hidx
    have h := closeDelays_closed_form n s hm (by omega)
    rw [h]
    apply List.map_congr_left
    intro k _
    rw [hidx]
    simp
  · intro s
    refine ⟨rfl, rfl, rfl⟩
  · intro s
    exact ⟨rfl, rfl, rfl, rfl⟩

/-- A freshly opened connection with clean backoff state. -/
def freshWS : WSState :=
  { ws := some ReadyState.opened
  , reconnectAttempts := 0
  , currentDelayIndex := 0
  , manual := false
  , heartbeatOn := true
  , stableTimerOn := true }

/-- Witness for the C6 theorem: five consecutive abnormal closures from a
fresh connection schedule 2 s, 5 s, 10 s, 30 s, 30 s; the stability reset
makes the next delay 2 s; a manual disconnect leaves index 0 and its close
event schedules nothing. -/
theorem reconnect_backoff_spec_witness :
    closeDelays freshWS 5 = [2000, 5000, 10000, 30000, 30000] ∧
    (attemptReconnect (stableTimerFire freshWS)).2 = 2000 ∧
    (wsHandleClose 1000 (wsDisconnect freshWS)).2 = none := by
  refine ⟨?_, ?_, ?_⟩
  · rw [reconnect_backoff_spec.1 5 freshWS rfl rfl]
    rfl
  · exact (reconnect_backoff_spec.2.1 freshWS).2.2
  · exact (reconnect_backoff_spec.2.2 freshWS).2.2.2

/-- A socket stuck in the CONNECTING state, not manually closed. -/
def c7Connecting : WSState :=
  { ws := some ReadyState.connecting
  , reconnectAttempts := 0
  , currentDelayIndex := 0
  , manual := false
  , heartbeatOn := false
  , stableTimerOn := false }

/-- An image payload for the C7 counterexample. -/
def c7Frame : String := "frame-data"

/-- C7 counterexample: a send while the socket is CONNECTING — a state in
which the connection is not open and the closure is not manual — transmits
nothing AND triggers no reconnect attempt: it is a pure no-op, refuting the
claim that any call while the connection is not open triggers a reconnect
attempt. -/
theorem send_connecting_noop_cex :
    c7Connecting.ws ≠ some ReadyState.opened ∧
    c7Connecting.manual = false ∧
    wsSend c7Connecting c7Frame = (c7Connecting, []) := by
  refine ⟨by decide, rfl, rfl⟩

/-- C7 (amended): a frame is transmitted iff the socket is OPEN and the
image data is at most the 5000 KB ceiling; an oversized frame on an open
socket is rejected locally with no other effect (no retry, no reconnect);
a send with no socket or a closing/closed one while not manually
disconnected triggers a connect attempt and transmits nothing; and a send
while CONNECTING is a pure no-op (no transmission, no reconnect). -/
theorem send_spec (s : WSState) (img : String) :
    (WSEffect.frameSent ∈ (wsSend s img).2 ↔
      s.ws = some ReadyState.opened ∧ (img.length : ℚ) / 1024 ≤ 5000) ∧
    (s.ws = some ReadyState.opened → (img.length : ℚ) / 1024 > 5000 →
      wsSend s img = (s, [WSEffect.rejectOversized])) ∧
    (s.ws = some ReadyState.connecting → wsSend s img = (s, [])) ∧
    ((s.ws = none ∨ s.ws = some ReadyState.closing ∨ s.ws = some ReadyState.closed) →
      s.manual = false →
      WSEffect.openSocket ∈ (wsSend s img).2 ∧ WSEffect.frameSent ∉ (wsSend s img).2) := by
  unfold wsSend
  cases hws : s.ws with
  | none =>
    cases hm : s.manual <;> simp [wsConnect]
  | some rs =>
    cases rs with
    | connecting => simp
    | closing => cases hm : s.manual <;> simp [wsConnect]
    | closed => cases hm : s.manual <;> simp [wsConnect]
    | opened =>
      by_cases hsize : (img.length : ℚ) / 1024 > 5000
      · rw [if_pos hsize]
        refine ⟨?_, fun _ _ => rfl, fun h => by simp at h, ?_⟩
        · constructor
          · intro hmem
            simp at hmem
          · intro hand
            exact absurd hand.2 (not_le.mpr hsize)
        · intro hor
          rcases hor with h | h | h <;> simp at h
      · rw [if_neg hsize]
        refine ⟨?_, fun _ hgt => absurd hgt hsize, fun h => by simp at h, ?_⟩
        · constructor
          · intro _
            exact ⟨rfl, le_of_not_lt hsize⟩
          · intro _
            simp
        · intro hor
          rcases hor with h | h | h <;> simp at h

/-- A connected socket with clean state for the C7 witness. -/
def c7Open : WSState :=
  { ws := some ReadyState.opened
  , reconnectAttempts := 0
  , currentDelayIndex := 0
  , manual := false
  , heartbeatOn := true
  , stableTimerOn := true }

/-- Witness for the C7 theorem: on the concrete open socket a small frame
is transmitted, and the concrete CONNECTING send is a no-op. -/
theorem send_spec_witness :
    WSEffect.frameSent ∈ (wsSend c7Open c7Frame).2 ∧
    wsSend c7Connecting c7Frame = (c7Connecting, []) :=
  ⟨(send_spec c7Open c7Frame).1.mpr
      ⟨rfl, by rw [show c7Frame.length = 10 from rfl]; norm_num⟩,
   (send_spec c7Connecting c7Frame).2.2.1 rfl⟩

end EPP
